import Mathlib

/-!
Verification development for the Liquid Audio Agent chat client.

The definitions below are a shallow embedding of the request-normalization
and dual-round tool-calling orchestration layer of the repository:

* `mapMessagesToOpenAI`, `transformOpenAIResponseToGemini`, `generateResponse`
  from `src/services/geminiService.ts`;
* the orchestrator `processResponse` / `handleSendMessage` from the App
  component (`src/unnamed/part_004`, lines 381-454);
* `N8NService.executeWorkflow` from `src/services/n8nService.ts`.

Wall-clock timestamps (`Date.now()`, `toLocaleTimeString`) are modelled by an
explicit `now : Nat` parameter; the presentation-only `time` field of
transcript messages is omitted.  `fetch` and `JSON.parse` are modelled by
explicit oracle parameters (`FetchResult`, `parse : String → Option Json`);
thrown JavaScript exceptions are modelled with `Except String`.
-/

namespace LiquidAudio

/-- JSON values, used for function-call arguments (`FunctionCall.args`) and
for the payloads the services serialize or parse. -/
inductive Json where
  | null
  | bool (b : Bool)
  | num (n : Int)
  | str (s : String)
  | arr (elems : List Json)
  | obj (fields : List (String × Json))
deriving Repr

mutual

/-- `JSON.stringify`, as used on `msg.functionCall.args` by the mapper
(string escaping is not modelled; no claim depends on it). -/
def Json.render : Json → String
  | .null => "null"
  | .bool b => if b then "true" else "false"
  | .num n => toString n
  | .str s => "\"" ++ s ++ "\""
  | .arr elems => "[" ++ Json.renderList elems ++ "]"
  | .obj fields => "\x7b" ++ Json.renderFields fields ++ "\x7d"

def Json.renderList : List Json → String
  | [] => ""
  | [x] => Json.render x
  | x :: xs => Json.render x ++ "," ++ Json.renderList xs

def Json.renderFields : List (String × Json) → String
  | [] => ""
  | [(k, v)] => "\"" ++ k ++ "\":" ++ Json.render v
  | (k, v) :: xs => "\"" ++ k ++ "\":" ++ Json.render v ++ "," ++ Json.renderFields xs

end

/-- JavaScript truthiness of a JSON value. -/
def Json.truthy : Json → Bool
  | .null => false
  | .bool b => b
  | .num n => n != 0
  | .str s => s != ""
  | .arr _ => true
  | .obj _ => true

mutual

/-- JavaScript string coercion of a value, as in a template literal
interpolation. -/
def Json.display : Json → String
  | .null => "null"
  | .bool b => if b then "true" else "false"
  | .num n => toString n
  | .str s => s
  | .arr elems => Json.displayList elems
  | .obj _ => "[object Object]"

def Json.displayList : List Json → String
  | [] => ""
  | [x] => Json.display x
  | x :: xs => Json.display x ++ "," ++ Json.displayList xs

end

/-- Field lookup on a JSON object (`args?.workflowName`). -/
def Json.lookup (j : Json) (key : String) : Option Json :=
  match j with
  | .obj fields => (fields.find? (fun p => p.1 == key)).map (fun p => p.2)
  | _ => none

/-- `FunctionCall` from `@google/genai` as used by the app: a tool-call
request with a name and structured arguments. -/
structure FunctionCall where
  name : String
  args : Json
deriving Repr

/-- Transcript message roles (`types.ts`; the webhook listener can also push
`system`-role entries, which the mapper filters out). -/
inductive MsgRole where
  | user
  | assistant
  | tool
  | system
deriving Repr, DecidableEq

/-- `Message` from `types.ts` (the presentation-only `time` and
`langGraphSteps` fields are omitted). -/
structure Message where
  role : MsgRole
  content : String
  functionCall : Option FunctionCall := none
  tools : Option (List String) := none
  isError : Bool := false
deriving Repr

/-- One element of an `OpenAIMessage.tool_calls` array
(`{id, type, function: {name, arguments}}`). -/
structure ToolCallEntry where
  id : String
  type : String
  fname : String
  farguments : String
deriving Repr, DecidableEq

/-- The OpenAI wire-format message (`OpenAIMessage` in `geminiService.ts`). -/
structure OpenAIMessage where
  role : String
  content : Option String
  tool_calls : Option (List ToolCallEntry) := none
  tool_call_id : Option String := none
  name : Option String := none
deriving Repr, DecidableEq

/-- The correlation id generated for an assistant tool call:
`` `call_${msg.functionCall.name}_${Date.now()}` ``. -/
def mkCallId (fcName : String) (now : Nat) : String :=
  "call_" ++ fcName ++ "_" ++ toString now

/-- The backward scan of the already-emitted list for the nearest prior
assistant entry carrying tool calls
(`openAiMessages.slice().reverse().find(...)`, `geminiService.ts` line 59). -/
def lastToolCallAssistant (emitted : List OpenAIMessage) : Option OpenAIMessage :=
  emitted.reverse.find? (fun m => m.role == "assistant" && m.tool_calls.isSome)

/-- One iteration of the mapping loop in `mapMessagesToOpenAI`
(`geminiService.ts` lines 38-69): project one filtered message and append
the result to the already-emitted list. -/
def mapStep (now : Nat) (acc : List OpenAIMessage) (msg : Message) : List OpenAIMessage :=
  match msg.role with
  | .user =>
    acc ++ [{ role := "user", content := some msg.content }]
  | .assistant =>
    match msg.functionCall with
    | some fc =>
        acc ++ [{ role := "assistant", content := none,
                  tool_calls := some [{ id := mkCallId fc.name now, type := "function",
                                        fname := fc.name, farguments := Json.render fc.args }] }]
    | none => acc ++ [{ role := "assistant", content := some msg.content }]
  | .tool =>
    match lastToolCallAssistant acc with
    | some lastAssistantMsg =>
        match lastAssistantMsg.tool_calls with
        | some (tc :: _) =>
            acc ++ [{ role := "tool", content := some msg.content,
                      tool_call_id := some tc.id, name := some tc.fname }]
        | _ => acc   -- unreachable: every emitted tool_calls list is a singleton
    | none => acc
  | .system => acc   -- filtered out before the loop; the final else of the chain

/-- The `for (const msg of filteredMessages)` loop. -/
def mapLoop (now : Nat) : List OpenAIMessage → List Message → List OpenAIMessage
  | acc, [] => acc
  | acc, msg :: rest => mapLoop now (mapStep now acc msg) rest

/-- `mapMessagesToOpenAI` (`geminiService.ts` lines 33-71): start from the
system-instruction entry, filter out `system`-role history messages, then
project each remaining message in order. -/
def mapMessagesToOpenAI (messages : List Message) (systemInstruction : String)
    (now : Nat) : List OpenAIMessage :=
  mapLoop now [{ role := "system", content := some systemInstruction }]
    (messages.filter (fun m => m.role != .system))

example :
    mapMessagesToOpenAI [{ role := .user, content := "hi" }] "sys" 7 =
      [{ role := "system", content := some "sys" },
       { role := "user", content := some "hi" }] := rfl

/-- `function` object of one provider-response tool call; each field may be
absent (the response body is duck-typed `any` in the source). -/
structure RespFunction where
  name : Option String := none
  arguments : Option String := none
deriving Repr, DecidableEq

/-- One provider-response tool-call entry. -/
structure RespToolCall where
  function : Option RespFunction := none
deriving Repr, DecidableEq

/-- Provider-response `message` object. -/
structure RespMessage where
  content : Option String := none
  tool_calls : Option (List RespToolCall) := none
deriving Repr, DecidableEq

/-- Provider-response `choices` element. -/
structure RespChoice where
  message : Option RespMessage := none
deriving Repr, DecidableEq

/-- Parsed provider-response body (`data` in
`transformOpenAIResponseToGemini`); `choices` may be absent. -/
structure RespData where
  choices : Option (List RespChoice) := none
deriving Repr, DecidableEq

/-- JavaScript truthiness of a possibly-absent string field
(`undefined`, `null` and `""` are falsy). -/
def truthyStr : Option String → Bool
  | some s => s != ""
  | none => false

/-- A part of the Gemini-shaped normalized response. -/
inductive Part where
  | text (s : String)
  | functionCall (fc : FunctionCall)
deriving Repr

/-- `candidates[i].content` of the normalized response. -/
structure CandidateContent where
  role : String
  parts : List Part
deriving Repr

/-- One `candidates` element of the normalized response. -/
structure Candidate where
  content : CandidateContent
deriving Repr

/-- The normalized (Gemini-shaped) completion result the app consumes:
`text` plus a mocked `candidates` array. -/
structure GenerateContentResponse where
  text : String
  candidates : List Candidate
deriving Repr

/-- The degraded result built by `transformOpenAIResponseToGemini` when the
body lacks the expected structure. -/
def errorResponse (errorMessage : String) : GenerateContentResponse :=
  { text := errorMessage,
    candidates := [{ content := { role := "model", parts := [.text errorMessage] } }] }

/-- `transformOpenAIResponseToGemini` (`geminiService.ts` lines 74-137).
`parse` models `JSON.parse` on the tool-call arguments string (`none` means
the parse threw); the input is `none` when `data` itself is null. -/
def transformOpenAIResponseToGemini (parse : String → Option Json)
    (data : Option RespData) : GenerateContentResponse :=
  match data with
  | none => errorResponse "Received an empty or invalid response from the LLM."
  | some d =>
    match d.choices with
    | none => errorResponse "Received an empty or invalid response from the LLM."
    | some [] => errorResponse "Received an empty or invalid response from the LLM."
    | some (choice :: _) =>
      match choice.message with
      | none => errorResponse "Received an invalid message structure from the LLM."
      | some message =>
        let responseText := message.content.getD ""
        let parts0 : List Part :=
          if truthyStr message.content then [.text responseText] else []
        let parts : List Part :=
          match message.tool_calls with
          | some (toolCall :: _) =>
            match toolCall.function with
            | some fn =>
              match fn.arguments, fn.name with
              | some as, some nm =>
                if (as != "") && (nm != "") then
                  match parse as with
                  | some args => parts0 ++ [.functionCall { name := nm, args := args }]
                  | none => parts0 ++ [.text "Error processing tool call from LLM."]
                else
                  parts0 ++ [.text "Received a malformed tool call from the LLM."]
              | _, _ => parts0 ++ [.text "Received a malformed tool call from the LLM."]
            | none => parts0 ++ [.text "Received a malformed tool call from the LLM."]
          | _ => parts0
        let finalParts : List Part :=
          if parts.length > 0 then parts
          else if responseText != "" then [.text responseText] else []
        { text := responseText,
          candidates := [{ content := { role := "model", parts := finalParts } }] }

/-- `AgentSettings` (`types.ts`). -/
structure AgentSettings where
  liquidAudio : Bool
  mementoMemory : Bool
  langGraph : Bool
  autoModelSelection : Bool
  reasoningSteps : Bool
  n8nToolCalling : Bool
deriving Repr, DecidableEq

/-- `N8NWorkflow` (`types.ts`). -/
structure N8NWorkflow where
  id : String
  name : String
deriving Repr, DecidableEq

/-- `ConnectionSettings` (`types.ts`); `provider` is kept as a string so the
unsupported-provider check of `generateResponse` stays meaningful. -/
structure ConnectionSettings where
  provider : String
  lmStudioUrl : String := ""
  openRouterApiKey : String := ""
  openRouterModel : String := ""
  n8nUrl : String := ""
  n8nApiKey : String := ""
  workflows : List N8NWorkflow := []
deriving Repr, DecidableEq

/-- `Object.entries(settings).filter(([, v]) => v).map(([k]) => k).join(', ')`
with the insertion order of `AgentSettings`. -/
def activeSettingsList (settings : AgentSettings) : String :=
  String.intercalate ", "
    ((([("liquidAudio", settings.liquidAudio), ("mementoMemory", settings.mementoMemory),
        ("langGraph", settings.langGraph), ("autoModelSelection", settings.autoModelSelection),
        ("reasoningSteps", settings.reasoningSteps), ("n8nToolCalling", settings.n8nToolCalling)]).filter
       (fun p => p.2)).map (fun p => p.1))

/-- `providerDetails` (`geminiService.ts` lines 156-158). -/
def providerDetails (connection : ConnectionSettings) (modelName : String) : String :=
  if connection.provider == "lmstudio" then
    "You are running as the model " ++ modelName ++ " locally via LM Studio."
  else
    "You are running as the model " ++ modelName ++ " via OpenRouter."

/-- The system-instruction template literal (`geminiService.ts` lines 160-174). -/
def mkSystemInstruction (settings : AgentSettings) (connection : ConnectionSettings)
    (modelName : String) : String :=
  "You are an AI assistant named \"Liquid Audio Agent\".\n" ++
  "Your personality is helpful, concise, and knowledgeable.\n" ++
  "You operate within a sophisticated environment that integrates several technologies.\n" ++
  "Your core orchestration engine is LangGraph. You must always act as if LangGraph is managing your state and workflow.\n" ++
  "The integrated components are:\n" ++
  "- LLM Provider: " ++ providerDetails connection modelName ++ "\n" ++
  "- Liquid Audio: Handles voice input/output.\n" ++
  "- Memento: Your long-term memory system. Reference it when discussing context or past interactions.\n" ++
  "- LangChain: The foundational agent framework.\n" ++
  "- N8N: An automation tool you can use by calling the \x27runN8NWorkflow\x27 function. Available workflows are: " ++
  String.intercalate ", " (connection.workflows.map (fun w => w.name)) ++ ".\n" ++
  "\n" ++
  "Your current settings are: " ++ activeSettingsList settings ++ ".\n" ++
  "When responding, acknowledge the workflow. For example: \"The LangGraph workflow completed successfully.\" or \"Using Memento for context, I\x27ve processed your request.\"\n" ++
  "If you use a tool, your final response should summarize the result of the tool\x27s action. Do not output the raw tool result.\n"

/-- The single OpenAI-format tool declaration
(`runN8NWorkflowToolOpenAI`, `geminiService.ts` lines 14-30). -/
structure ToolDeclOpenAI where
  type : String
  fname : String
  description : String
  parameters : Json
deriving Repr

def runN8NWorkflowToolOpenAI : ToolDeclOpenAI :=
  { type := "function", fname := "runN8NWorkflow",
    description := "Executes a pre-configured N8N workflow to automate a task.",
    parameters := Json.obj
      [("type", Json.str "object"),
       ("properties", Json.obj
         [("workflowName", Json.obj
           [("type", Json.str "string"),
            ("description", Json.str "The exact name of the workflow to run.")])]),
       ("required", Json.arr [Json.str "workflowName"])] }

def toolsOpenAI : List ToolDeclOpenAI := [runN8NWorkflowToolOpenAI]

/-- The JSON body POSTed to the chat-completions endpoint
(`body` in `generateResponse`). -/
structure RequestBody where
  model : String
  messages : List OpenAIMessage
  tools : Option (List ToolDeclOpenAI) := none
  tool_choice : Option String := none
deriving Repr

/-- Construction of the request body (`geminiService.ts` lines 185-191):
`tools`/`tool_choice` are attached only when `allowTools` and the
`n8nToolCalling` setting are both on. -/
def buildRequestBody (history : List Message) (settings : AgentSettings)
    (connection : ConnectionSettings) (modelName : String) (allowTools : Bool)
    (now : Nat) : RequestBody :=
  let systemInstruction := mkSystemInstruction settings connection modelName
  let messages := mapMessagesToOpenAI history systemInstruction now
  if allowTools && settings.n8nToolCalling then
    { model := modelName, messages := messages,
      tools := some toolsOpenAI, tool_choice := some "auto" }
  else
    { model := modelName, messages := messages }

/-- Outcome of the single `fetch` call made by `generateResponse`:
either the fetch promise rejected, or an HTTP response arrived.
`jsonBody` is the outcome of `response.json()`: `none` when the body is not
valid JSON (the parse throws), `some data` when it parses (with `data = none`
for a JSON `null` body). -/
inductive FetchResult where
  | fetchError
  | response (ok : Bool) (status : Nat) (bodyText : String)
      (jsonBody : Option (Option RespData))

/-- Observable outcome of one `generateResponse` invocation: the request body
handed to `fetch` (if the invocation got that far) and the returned or thrown
result. -/
structure GenOutcome where
  requestSent : Option RequestBody
  result : Except String GenerateContentResponse

/-- `generateResponse` (`geminiService.ts` lines 139-212).  The `try` block is
`generateResponse`'s inner computation; its `catch` replaces any thrown error
with the generic provider-failure message. -/
def generateResponse (history : List Message) (settings : AgentSettings)
    (connection : ConnectionSettings) (modelName : String) (allowTools : Bool)
    (now : Nat) (parse : String → Option Json) (fetchResult : FetchResult) :
    GenOutcome :=
  if !(connection.provider == "lmstudio") && !(connection.provider == "openrouter") then
    { requestSent := none,
      result := .error ("Unsupported provider: " ++ connection.provider ++
        ". This app is configured for LM Studio or OpenRouter.") }
  else
    let body := buildRequestBody history settings connection modelName allowTools now
    let tryBlock : Except String GenerateContentResponse :=
      match fetchResult with
      | .fetchError => .error "TypeError: Failed to fetch"
      | .response ok status _ jsonBody =>
        if !ok then
          .error ("Failed to get response from " ++ connection.provider ++
            ". Status: " ++ toString status ++ ".")
        else
          match jsonBody with
          | none => .error "SyntaxError: Unexpected token in JSON"
          | some data => .ok (transformOpenAIResponseToGemini parse data)
    { requestSent := some body,
      result :=
        match tryBlock with
        | .ok r => .ok r
        | .error _ => .error ("Failed to get response from " ++ connection.provider ++
            ". Check console for details.") }

/-- `N8NExecutionResult` (`n8nService.ts` lines 3-8). -/
structure N8NExecutionResult where
  success : Bool
  data : Option Json := none
  error : Option String := none
  executionId : Option Json := none
deriving Repr

/-- `message.includes(pat)` on an error message. -/
def containsSub (s pat : String) : Bool := (s.splitOn pat).length > 1

/-- `N8NService.formatErrorMessage` (`n8nService.ts` lines 151-170); thrown
errors are modelled by their message string. -/
def formatErrorMessage (msg : String) : String :=
  if containsSub msg "401" then
    "❌ Authentication Failed: Invalid N8N API Key. Please check your API key in N8N Settings > API."
  else if containsSub msg "403" then
    "❌ Forbidden: Insufficient permissions to access N8N API."
  else if containsSub msg "404" then
    "❌ N8N API Not Found: Make sure N8N is running and the URL is correct (default: http://localhost:5678)."
  else if containsSub msg "CORS" then
    "🔒 CORS Policy Error: Please restart N8N with CORS configuration enabled. Run \"fix-cors.bat\" (Windows) or \"./fix-cors.sh\" (Linux/Mac)."
  else if containsSub msg "ECONNREFUSED" then
    "❌ Connection Refused: N8N is not running or not accessible at the specified URL."
  else if containsSub msg "ENOTFOUND" then
    "❌ Host Not Found: N8N URL is incorrect or DNS resolution failed."
  else
    "❌ Error: " ++ msg

/-- `N8NService.executeWorkflow` (`n8nService.ts` lines 56-91).
`fetchWorkflowsResult` is the outcome of `this.fetchWorkflows()` (its error
carries an already-formatted message, which the catch formats again);
`execRequestResult` is the outcome of the execute POST. -/
def executeWorkflow (fetchWorkflowsResult : Except String (List N8NWorkflow))
    (workflowName : String) (execRequestResult : Except String Json) :
    N8NExecutionResult :=
  match fetchWorkflowsResult with
  | .error e => { success := false, error := some (formatErrorMessage e) }
  | .ok workflows =>
    match workflows.find? (fun wf => wf.name == workflowName) with
    | none =>
      { success := false,
        error := some ("Workflow \"" ++ workflowName ++ "\" not found. Available workflows: " ++
          String.intercalate ", " (workflows.map (fun w => w.name))) }
    | some _ =>
      match execRequestResult with
      | .ok response =>
        { success := true, data := some response,
          executionId := (response.lookup "data").bind (fun d => d.lookup "executionId") }
      | .error e => { success := false, error := some (formatErrorMessage e) }

/-- Ambient inputs of one orchestrator turn: the settings/connection/model
captured by `handleSendMessage`, plus the wall clock and `JSON.parse`. -/
structure Env where
  settings : AgentSettings
  connection : ConnectionSettings
  modelName : String
  now : Nat
  parse : String → Option Json

/-- `response.candidates?.[0]?.content.parts[0]` (`part_004` line 383). -/
def headPart (r : GenerateContentResponse) : Option Part :=
  match r.candidates with
  | [] => none
  | c :: _ => c.content.parts.head?

/-- `functionCall.args?.workflowName as string || 'Unknown Workflow'`
(`part_004` line 387): the `as string` cast is erased at runtime, so the raw
value's JavaScript truthiness and string coercion decide. -/
def workflowNameOf (fc : FunctionCall) : String :=
  match fc.args.lookup "workflowName" with
  | some v => if v.truthy then v.display else "Unknown Workflow"
  | none => "Unknown Workflow"

/-- The assistant transcript entry announcing a workflow execution
(`toolMessage`, `part_004` lines 389-395). -/
def mkToolMessage (fc : FunctionCall) : Message :=
  { role := .assistant,
    content := "Executing N8N workflow: <strong>" ++ workflowNameOf fc ++ "</strong>...",
    functionCall := some fc,
    tools := some ["N8N Automation"] }

/-- The tool-role transcript entry the orchestrator appends
(`toolExecutionMessage`, `part_004` lines 396-400); its content is the fixed
success string, not a gateway outcome. -/
def mkToolExecutionMessage (fc : FunctionCall) : Message :=
  { role := .tool,
    content := "Successfully executed the \"" ++ workflowNameOf fc ++ "\" workflow." }

/-- Final disposition of `processResponse`, carrying the transcript
(`finalMessages`) as last updated. -/
inductive ProcOutcome where
  | done (msgs : List Message) (text : String)
  | threw (msgs : List Message) (err : String)
  | noResponse (msgs : List Message)
deriving Repr

/-- `processResponse` (`src/unnamed/part_004` lines 381-411), the
orchestrator's recursive round loop.  `fetches` is the oracle of provider
behaviors, one per completion request; the returned list collects every
request body handed to `fetch`, in order.  On a function-call head part the
code appends the announcement and success messages and recurses with
`allowTools = false`. -/
def processResponse (env : Env) (fetches : List FetchResult)
    (finalMessages : List Message) (allowTools : Bool) :
    List RequestBody × ProcOutcome :=
  match fetches with
  | [] => ([], .noResponse finalMessages)
  | f :: rest =>
    let g := generateResponse finalMessages env.settings env.connection env.modelName
      allowTools env.now env.parse f
    let reqs0 := match g.requestSent with
      | some b => [b]
      | none => []
    match g.result with
    | .error e => (reqs0, .threw finalMessages e)
    | .ok response =>
      match headPart response with
      | some (.functionCall fc) =>
        let fm := finalMessages ++ [mkToolMessage fc, mkToolExecutionMessage fc]
        let (reqs, out) := processResponse env rest fm false
        (reqs0 ++ reqs, out)
      | _ => (reqs0, .done finalMessages response.text)

/-- The turn logic of `handleSendMessage` (`src/unnamed/part_004` lines
357-454): append the user message, run `processResponse` with tools allowed,
then append either the returned assistant text or the generic error entry. -/
def handleSendMessage (env : Env) (fetches : List FetchResult)
    (messages : List Message) (content : String) (isProcessing : Bool) :
    List Message :=
  if content.trim == "" || isProcessing then messages
  else
    let userMessage : Message := { role := .user, content := content }
    let currentMessages := messages ++ [userMessage]
    let errorMessage : Message :=
      { role := .assistant,
        content := "Sorry, I encountered an error. Please check my connection settings or the console for more details.",
        isError := true }
    match (processResponse env fetches currentMessages true).2 with
    | .done msgs text => msgs ++ [{ role := .assistant, content := text }]
    | .threw msgs _ => msgs ++ [errorMessage]
    | .noResponse msgs => msgs

/-- Number of `tool`-role transcript entries (one per synthesized tool round). -/
def toolRoleCount (msgs : List Message) : Nat :=
  (msgs.filter (fun m => m.role == .tool)).length

/-- The result `generateResponse` returns or throws, which depends only on
the provider selector, `JSON.parse` and the fetch outcome (not on the
history, model name or tool flags). -/
def genResult (env : Env) (f : FetchResult) : Except String GenerateContentResponse :=
  (generateResponse [] env.settings env.connection env.modelName true env.now env.parse f).result

theorem genResult_spec (history : List Message) (env : Env) (allowTools : Bool)
    (f : FetchResult) :
    (generateResponse history env.settings env.connection env.modelName allowTools
      env.now env.parse f).result = genResult env f := by
  by_cases h : (!(env.connection.provider == "lmstudio") &&
      !(env.connection.provider == "openrouter")) = true
  · simp [generateResponse, genResult, h]
  · simp [generateResponse, genResult, h]

/-- The transcript carried by a `ProcOutcome`. -/
def procMsgs : ProcOutcome → List Message
  | .done msgs _ => msgs
  | .threw msgs _ => msgs
  | .noResponse msgs => msgs

def settingsAllOn : AgentSettings :=
  { liquidAudio := true, mementoMemory := true, langGraph := true,
    autoModelSelection := true, reasoningSteps := true, n8nToolCalling := true }

def lmConnection : ConnectionSettings :=
  { provider := "lmstudio", lmStudioUrl := "http://localhost:1234/v1",
    workflows := [{ id := "1", name := "Nightly Backup" }, { id := "2", name := "Daily Report" }] }

/-- A concrete `JSON.parse` oracle, defined on the two tool-call argument
payloads used in the concrete runs below. -/
def parseFix : String → Option Json := fun s =>
  if s == "\x7b\"workflowName\":\"Nightly Backup\"\x7d" then
    some (Json.obj [("workflowName", Json.str "Nightly Backup")])
  else if s == "\x7b\"workflowName\":\"Daily Report\"\x7d" then
    some (Json.obj [("workflowName", Json.str "Daily Report")])
  else none

def env0 : Env :=
  { settings := settingsAllOn, connection := lmConnection, modelName := "llama-3",
    now := 111, parse := parseFix }

/-- Provider behavior: HTTP 200 whose body carries one tool call asking to run
workflow `wf`. -/
def fcFetch (wf : String) : FetchResult :=
  let fn : RespFunction :=
    { name := some "runN8NWorkflow",
      arguments := some ("\x7b\"workflowName\":\"" ++ wf ++ "\"\x7d") }
  let msg : RespMessage := { content := none, tool_calls := some [{ function := some fn }] }
  .response true 200 "" (some (some { choices := some [{ message := some msg }] }))

/-- Provider behavior: HTTP 200 whose body carries plain text `t`. -/
def textFetch (t : String) : FetchResult :=
  let msg : RespMessage := { content := some t }
  .response true 200 "" (some (some { choices := some [{ message := some msg }] }))

def u0 : Message := { role := .user, content := "run my backup workflow" }

/-- Correlation contract for one emitted entry: if it is a `tool`-role entry,
its `tool_call_id` and `name` are copied from the first tool call of the
nearest preceding emitted assistant entry that carries tool calls. -/
def toolEntryOk (pre : List OpenAIMessage) (t : OpenAIMessage) : Prop :=
  t.role = "tool" →
    ∃ a tc rest, lastToolCallAssistant pre = some a ∧
      a.tool_calls = some (tc :: rest) ∧
      t.tool_call_id = some tc.id ∧ t.name = some tc.fname

/-- Every `tool`-role entry of the list satisfies the correlation contract
with respect to the entries emitted before it. -/
def wellCorrelated (l : List OpenAIMessage) : Prop :=
  ∀ i (h : i < l.length), toolEntryOk (l.take i) (l.get ⟨i, h⟩)

theorem toolEntryOk_not_tool (pre : List OpenAIMessage) (t : OpenAIMessage)
    (h : t.role ≠ "tool") : toolEntryOk pre t :=
  fun hr => absurd hr h

theorem wellCorrelated_append (l : List OpenAIMessage) (x : OpenAIMessage)
    (hl : wellCorrelated l) (hx : toolEntryOk l x) :
    wellCorrelated (l ++ [x]) := by
  intro i h
  rcases Nat.lt_or_ge i l.length with hi | hi
  · have hget : (l ++ [x]).get ⟨i, h⟩ = l.get ⟨i, hi⟩ := by
      simp [List.get_eq_getElem, List.getElem_append_left hi]
    have htake : (l ++ [x]).take i = l.take i := by
      rw [List.take_append_eq_append_take]
      have h0 : i - l.length = 0 := by omega
      simp [h0]
    rw [hget, htake]
    exact hl i hi
  · have hlen : i = l.length := by
      have hlt := h
      simp only [List.length_append, List.length_singleton] at hlt
      omega
    subst hlen
    have hget : (l ++ [x]).get ⟨l.length, h⟩ = x := by
      rw [List.get_eq_getElem, List.getElem_append_right (Nat.le_refl _)]
      simp
    have htake : (l ++ [x]).take l.length = l := by
      rw [List.take_append_eq_append_take]
      simp
    rw [hget, htake]
    exact hx

theorem wellCorrelated_mapStep (now : Nat) (acc : List OpenAIMessage) (msg : Message)
    (h : wellCorrelated acc) : wellCorrelated (mapStep now acc msg) := by
  rcases hrole : msg.role
  case user =>
    simp only [mapStep, hrole]
    exact wellCorrelated_append _ _ h
      (toolEntryOk_not_tool _ _ (show ("user" : String) ≠ "tool" by decide))
  case assistant =>
    simp only [mapStep, hrole]
    rcases msg.functionCall with _ | fc
    · exact wellCorrelated_append _ _ h
        (toolEntryOk_not_tool _ _ (show ("assistant" : String) ≠ "tool" by decide))
    · exact wellCorrelated_append _ _ h
        (toolEntryOk_not_tool _ _ (show ("assistant" : String) ≠ "tool" by decide))
  case tool =>
    simp only [mapStep, hrole]
    rcases hlast : lastToolCallAssistant acc with _ | a
    · simpa using h
    · rcases htc : a.tool_calls with _ | tcs
      · simpa [htc] using h
      · rcases tcs with _ | ⟨tc, rest⟩
        · simpa [htc] using h
        · simp only [htc]
          refine wellCorrelated_append _ _ h ?_
          intro _
          exact ⟨a, tc, rest, hlast, htc, rfl, rfl⟩
  case system =>
    simpa only [mapStep, hrole] using h

theorem wellCorrelated_mapLoop (now : Nat) (msgs : List Message) :
    ∀ acc, wellCorrelated acc → wellCorrelated (mapLoop now acc msgs) := by
  induction msgs with
  | nil => intro acc h; exact h
  | cons m rest ih =>
      intro acc h
      exact ih _ (wellCorrelated_mapStep now acc m h)

theorem wellCorrelated_init (si : String) :
    wellCorrelated [{ role := "system", content := some si }] := by
  intro i h
  have hi : i = 0 := Nat.lt_one_iff.mp (by simpa using h)
  subst hi
  exact toolEntryOk_not_tool _ _ (show ("system" : String) ≠ "tool" by decide)

/-- The two-message history of the claim's concrete instance:
an assistant tool call followed by its tool result. -/
def histC4 : List Message :=
  [{ role := .assistant, content := "Executing...",
     functionCall := some { name := "runN8NWorkflow",
                            args := Json.obj [("workflowName", Json.str "Backup")] } },
   { role := .tool, content := "ok" }]

/-- C4: in every mapper output, each tool-role entry's `tool_call_id` equals
the id (and its `name` the function name) of the first tool call of the
nearest preceding emitted assistant entry carrying a tool call; in
particular, for `[assistant(functionCall=F), tool(result=R)]` the mapped tool
entry's correlation id equals the mapped assistant entry's correlation id. -/
theorem c4_tool_correlation :
    (∀ (messages : List Message) (si : String) (now : Nat),
        wellCorrelated (mapMessagesToOpenAI messages si now)) ∧
    ((mapMessagesToOpenAI histC4 "sys" 42).map
        (fun m => (m.role, m.tool_calls.map (fun tcs => tcs.map (fun tc => tc.id)),
                   m.tool_call_id, m.name)) =
      [("system", none, none, none),
       ("assistant", some ["call_runN8NWorkflow_42"], none, none),
       ("tool", none, some "call_runN8NWorkflow_42", some "runN8NWorkflow")]) := by
  constructor
  · intro messages si now
    exact wellCorrelated_mapLoop now _ _ (wellCorrelated_init si)
  · rfl

/-- Witness for C4: the correlation contract applied to the tool entry (index
2) of the mapped concrete history. -/
theorem c4_witness :
    ∃ a tc rest,
      lastToolCallAssistant ((mapMessagesToOpenAI histC4 "sys" 42).take 2) = some a ∧
      a.tool_calls = some (tc :: rest) ∧
      ((mapMessagesToOpenAI histC4 "sys" 42).get ⟨2, by decide⟩).tool_call_id = some tc.id ∧
      ((mapMessagesToOpenAI histC4 "sys" 42).get ⟨2, by decide⟩).name = some tc.fname :=
  c4_tool_correlation.1 histC4 "sys" 42 2 (by decide) (by rfl)

/-- No emitted entry is an assistant entry carrying tool calls (the backward
scan of the mapper finds nothing in such a list). -/
def noOpenCall (l : List OpenAIMessage) : Prop :=
  ∀ m ∈ l, (m.role == "assistant" && m.tool_calls.isSome) = false

theorem lastToolCallAssistant_eq_none (l : List OpenAIMessage) (h : noOpenCall l) :
    lastToolCallAssistant l = none := by
  unfold lastToolCallAssistant
  rw [List.find?_eq_none]
  intro m hm
  have hf := h m (List.mem_reverse.mp hm)
  simp [hf]

theorem mapStep_tool_drop (now : Nat) (acc : List OpenAIMessage) (msg : Message)
    (h : noOpenCall acc) (hrole : msg.role = .tool) :
    mapStep now acc msg = acc := by
  simp [mapStep, hrole, lastToolCallAssistant_eq_none acc h]

theorem noOpenCall_append (l : List OpenAIMessage) (x : OpenAIMessage)
    (h : noOpenCall l) (hx : (x.role == "assistant" && x.tool_calls.isSome) = false) :
    noOpenCall (l ++ [x]) := by
  intro m hm
  rcases List.mem_append.mp hm with hm | hm
  · exact h m hm
  · simp only [List.mem_singleton] at hm
    subst hm
    exact hx

theorem mapStep_preserves_noOpenCall (now : Nat) (acc : List OpenAIMessage) (msg : Message)
    (h : noOpenCall acc)
    (hmsg : ¬(msg.role = .assistant ∧ msg.functionCall.isSome = true)) :
    noOpenCall (mapStep now acc msg) := by
  rcases hrole : msg.role
  case user =>
    simp only [mapStep, hrole]
    exact noOpenCall_append _ _ h rfl
  case assistant =>
    simp only [mapStep, hrole]
    rcases hfc : msg.functionCall with _ | fc
    · exact noOpenCall_append _ _ h rfl
    · exact absurd ⟨hrole, by simp [hfc]⟩ hmsg
  case tool =>
    rw [mapStep_tool_drop now acc msg h hrole]
    exact h
  case system =>
    simpa only [mapStep, hrole] using h

theorem mapLoop_preserves_noOpenCall (now : Nat) :
    ∀ (msgs : List Message),
      (∀ m ∈ msgs, ¬(m.role = .assistant ∧ m.functionCall.isSome = true)) →
      ∀ acc, noOpenCall acc → noOpenCall (mapLoop now acc msgs) := by
  intro msgs
  induction msgs with
  | nil => intro _ acc h; exact h
  | cons m rest ih =>
      intro hmsgs acc h
      exact ih (fun x hx => hmsgs x (List.mem_cons_of_mem _ hx)) _
        (mapStep_preserves_noOpenCall now acc m h (hmsgs m (List.mem_cons_self _ _)))

theorem mapLoop_append (now : Nat) (xs ys : List Message) :
    ∀ acc, mapLoop now acc (xs ++ ys) = mapLoop now (mapLoop now acc xs) ys := by
  induction xs with
  | nil => intro acc; rfl
  | cons m rest ih => intro acc; simp only [List.cons_append, mapLoop]; exact ih _

theorem noOpenCall_init (si : String) :
    noOpenCall [{ role := "system", content := some si }] := by
  intro m hm
  simp only [List.mem_singleton] at hm
  subst hm
  rfl

/-- C5: a tool-role message with no preceding assistant message carrying a
function call is silently dropped by the mapper — the output is the same as
for the history without that message, and no error is raised (the mapper is a
total function). -/
theorem c5_orphan_drop (pre post : List Message) (toolMsg : Message) (si : String)
    (now : Nat) (htool : toolMsg.role = .tool)
    (hpre : ∀ m ∈ pre, ¬(m.role = .assistant ∧ m.functionCall.isSome = true)) :
    mapMessagesToOpenAI (pre ++ toolMsg :: post) si now =
      mapMessagesToOpenAI (pre ++ post) si now := by
  unfold mapMessagesToOpenAI
  have hkeep : (toolMsg.role != MsgRole.system) = true := by simp [htool]
  rw [List.filter_append, List.filter_cons, hkeep, List.filter_append]
  simp only [if_true]
  rw [mapLoop_append, mapLoop_append]
  have hopen : noOpenCall (mapLoop now [{ role := "system", content := some si }]
      (pre.filter (fun m => m.role != MsgRole.system))) :=
    mapLoop_preserves_noOpenCall now _
      (fun m hm => hpre m (List.mem_of_mem_filter hm)) _ (noOpenCall_init si)
  show mapLoop now (mapStep now _ toolMsg) _ = _
  rw [mapStep_tool_drop now _ toolMsg hopen htool]

/-- Witness for C5: a concrete orphan tool message is dropped. -/
theorem c5_witness :
    mapMessagesToOpenAI
        [{ role := .user, content := "hello" }, { role := .tool, content := "orphan" }]
        "sys" 7 =
      mapMessagesToOpenAI [{ role := .user, content := "hello" }] "sys" 7 := by
  have h := c5_orphan_drop [{ role := .user, content := "hello" }] []
    { role := .tool, content := "orphan" } "sys" 7 rfl
    (by intro m hm; simp only [List.mem_singleton] at hm; subst hm; simp)
  simpa using h

/-- The passthrough projection applied to user messages and to assistant
messages without a function call. -/
def simpleProj (m : Message) : OpenAIMessage :=
  if m.role == .user then { role := "user", content := some m.content }
  else { role := "assistant", content := some m.content }

theorem mapStep_prefix (now : Nat) (acc : List OpenAIMessage) (msg : Message) :
    ∃ t, mapStep now acc msg = acc ++ t := by
  obtain ⟨role, content, fc, tools, isErr⟩ := msg
  cases role
  case user => exact ⟨_, rfl⟩
  case assistant =>
    cases fc
    · exact ⟨_, rfl⟩
    · exact ⟨_, rfl⟩
  case tool =>
    rcases hlast : lastToolCallAssistant acc with _ | a
    · exact ⟨[], by simp [mapStep, hlast]⟩
    · rcases htc : a.tool_calls with _ | tcs
      · exact ⟨[], by simp [mapStep, hlast, htc]⟩
      · rcases tcs with _ | ⟨tc, rest⟩
        · exact ⟨[], by simp [mapStep, hlast, htc]⟩
        · have hstep : mapStep now acc ⟨.tool, content, fc, tools, isErr⟩ =
              acc ++ [{ role := "tool", content := some content,
                        tool_call_id := some tc.id, name := some tc.fname }] := by
            simp [mapStep, hlast, htc]
          exact ⟨_, hstep⟩
  case system => exact ⟨[], (List.append_nil acc).symm⟩

theorem mapLoop_prefix (now : Nat) (msgs : List Message) :
    ∀ acc, ∃ s, mapLoop now acc msgs = acc ++ s := by
  induction msgs with
  | nil => intro acc; exact ⟨[], (List.append_nil acc).symm⟩
  | cons m rest ih =>
      intro acc
      obtain ⟨t, ht⟩ := mapStep_prefix now acc m
      obtain ⟨s, hs⟩ := ih (mapStep now acc m)
      refine ⟨t ++ s, ?_⟩
      show mapLoop now (mapStep now acc m) rest = _
      rw [hs, ht, List.append_assoc]

theorem mapLoop_simple (now : Nat) :
    ∀ (msgs : List Message),
      (∀ m ∈ msgs, m.role = .user ∨ (m.role = .assistant ∧ m.functionCall = none)) →
      ∀ acc, mapLoop now acc msgs = acc ++ msgs.map simpleProj := by
  intro msgs
  induction msgs with
  | nil => intro _ acc; simp [mapLoop]
  | cons m rest ih =>
      intro hyp acc
      have hstep : mapStep now acc m = acc ++ [simpleProj m] := by
        rcases hyp m (List.mem_cons_self _ _) with h1 | ⟨h1, h2⟩
        · simp [mapStep, h1, simpleProj]
        · simp [mapStep, h1, h2, simpleProj]
      show mapLoop now (mapStep now acc m) rest = _
      rw [hstep, ih (fun x hx => hyp x (List.mem_cons_of_mem _ hx)) _]
      simp [List.append_assoc]

/-- C7: the mapper's output starts with the system instruction as a
system-role entry, system-role input messages are filtered out, and for a
history of user and assistant(no-functionCall) messages the output is exactly
the system entry followed by one passthrough entry per message — length N+1,
role order preserved. -/
theorem c7_mapping_shape :
    (∀ (messages : List Message) (si : String) (now : Nat),
        (mapMessagesToOpenAI messages si now).head? =
          some { role := "system", content := some si }) ∧
    (∀ (messages : List Message) (si : String) (now : Nat),
        mapMessagesToOpenAI messages si now =
          mapMessagesToOpenAI (messages.filter (fun m => m.role != .system)) si now) ∧
    (∀ (messages : List Message) (si : String) (now : Nat),
        (∀ m ∈ messages, m.role = .user ∨ (m.role = .assistant ∧ m.functionCall = none)) →
        mapMessagesToOpenAI messages si now =
          { role := "system", content := some si } :: messages.map simpleProj ∧
        (mapMessagesToOpenAI messages si now).length = messages.length + 1 ∧
        (mapMessagesToOpenAI messages si now).map (fun m => m.role) =
          "system" :: messages.map (fun m => if m.role == .user then "user" else "assistant")) := by
  refine ⟨?_, ?_, ?_⟩
  · intro messages si now
    unfold mapMessagesToOpenAI
    obtain ⟨s, hs⟩ := mapLoop_prefix now (messages.filter fun m => m.role != .system) _
    rw [hs]
    rfl
  · intro messages si now
    unfold mapMessagesToOpenAI
    congr 1
    rw [List.filter_filter]
    simp
  · intro messages si now hyp
    have hfilter : messages.filter (fun m => m.role != .system) = messages := by
      rw [List.filter_eq_self]
      intro m hm
      rcases hyp m hm with h | ⟨h, _⟩ <;> simp [h]
    have hmain : mapMessagesToOpenAI messages si now =
        { role := "system", content := some si } :: messages.map simpleProj := by
      unfold mapMessagesToOpenAI
      rw [hfilter, mapLoop_simple now messages hyp]
      rfl
    refine ⟨hmain, ?_, ?_⟩
    · rw [hmain]; simp
    · rw [hmain]
      simp only [List.map_cons, List.map_map]
      congr 1
      apply List.map_congr_left
      intro m _
      simp only [Function.comp_apply, simpleProj]
      split <;> rfl

/-- Witness for C7: a concrete two-message user/assistant history maps to the
system entry plus two passthrough entries. -/
theorem c7_witness :
    mapMessagesToOpenAI
        [{ role := .user, content := "hi" }, { role := .assistant, content := "yo" }]
        "sys" 3 =
      { role := "system", content := some "sys" } ::
        ([{ role := .user, content := "hi" },
          { role := .assistant, content := "yo" }] : List Message).map simpleProj ∧
    (mapMessagesToOpenAI
        [{ role := .user, content := "hi" }, { role := .assistant, content := "yo" }]
        "sys" 3).length = 3 := by
  have h := c7_mapping_shape.2.2
    [{ role := .user, content := "hi" }, { role := .assistant, content := "yo" }] "sys" 3
    (by
      intro m hm
      simp only [List.mem_cons, List.not_mem_nil, or_false] at hm
      rcases hm with rfl | rfl
      · exact Or.inl rfl
      · exact Or.inr ⟨rfl, rfl⟩)
  exact ⟨h.1, h.2.1.trans (by rfl)⟩

theorem getD_of_not_truthy (o : Option String) (h : truthyStr o = false) :
    o.getD "" = "" := by
  rcases o with _ | s
  · rfl
  · simpa [truthyStr] using h

/-- C6: a parsed body lacking a non-empty `choices` array, or whose first
choice lacks a `message`, makes the client return (not throw) a result whose
`text` is a fixed non-empty diagnostic string. -/
theorem c6_degrade_not_throw :
    (∀ (parse : String → Option Json) (data : Option RespData),
        (data = none ∨ ∃ d, data = some d ∧ (d.choices = none ∨ d.choices = some [])) →
        transformOpenAIResponseToGemini parse data =
          errorResponse "Received an empty or invalid response from the LLM." ∧
        (transformOpenAIResponseToGemini parse data).text ≠ "") ∧
    (∀ (parse : String → Option Json) (d : RespData) (c : RespChoice)
        (rest : List RespChoice),
        d.choices = some (c :: rest) → c.message = none →
        transformOpenAIResponseToGemini parse (some d) =
          errorResponse "Received an invalid message structure from the LLM." ∧
        (transformOpenAIResponseToGemini parse (some d)).text ≠ "") ∧
    (∀ (history : List Message) (settings : AgentSettings)
        (connection : ConnectionSettings) (modelName : String) (allowTools : Bool)
        (now : Nat) (parse : String → Option Json) (status : Nat) (bodyText : String)
        (data : Option RespData),
        (connection.provider = "lmstudio" ∨ connection.provider = "openrouter") →
        (generateResponse history settings connection modelName allowTools now parse
          (.response true status bodyText (some data))).result =
          .ok (transformOpenAIResponseToGemini parse data)) := by
  refine ⟨?_, ?_, ?_⟩
  · intro parse data hbad
    have h1 : transformOpenAIResponseToGemini parse data =
        errorResponse "Received an empty or invalid response from the LLM." := by
      rcases hbad with rfl | ⟨d, rfl, hch | hch⟩
      · rfl
      · simp [transformOpenAIResponseToGemini, hch]
      · simp [transformOpenAIResponseToGemini, hch]
    refine ⟨h1, ?_⟩
    rw [h1]
    decide
  · intro parse d c rest hch hm
    have h1 : transformOpenAIResponseToGemini parse (some d) =
        errorResponse "Received an invalid message structure from the LLM." := by
      simp [transformOpenAIResponseToGemini, hch, hm]
    refine ⟨h1, ?_⟩
    rw [h1]
    decide
  · intro history settings connection modelName allowTools now parse status bodyText data hp
    rcases hp with hp | hp <;> simp [generateResponse, hp]

/-- Witness for C6: a body with an empty `choices` array yields the fixed
diagnostic result, and a supported-provider invocation returns it. -/
theorem c6_witness :
    transformOpenAIResponseToGemini parseFix (some { choices := some [] }) =
      errorResponse "Received an empty or invalid response from the LLM." ∧
    (transformOpenAIResponseToGemini parseFix (some { choices := some [] })).text ≠ "" ∧
    (generateResponse [u0] settingsAllOn lmConnection "llama-3" true 0 parseFix
      (.response true 200 "" (some (some { choices := some [] })))).result =
      .ok (transformOpenAIResponseToGemini parseFix (some { choices := some [] })) := by
  have h1 := c6_degrade_not_throw.1 parseFix (some { choices := some [] })
    (Or.inr ⟨_, rfl, Or.inr rfl⟩)
  have h2 := c6_degrade_not_throw.2.2 [u0] settingsAllOn lmConnection "llama-3" true 0
    parseFix 200 "" (some { choices := some [] }) (Or.inl rfl)
  exact ⟨h1.1, h1.2, h2⟩

/-- The function call carried by a normalized-response part, if any. -/
def partFC : Part → Option FunctionCall
  | .functionCall fc => some fc
  | .text _ => none

/-- All function calls surfaced anywhere in a normalized response. -/
def surfacedFunctionCalls (r : GenerateContentResponse) : List FunctionCall :=
  (r.candidates.map (fun c => c.content.parts.filterMap partFC)).flatten

/-- All parts of a normalized response. -/
def partsOf (r : GenerateContentResponse) : List Part :=
  (r.candidates.map (fun c => c.content.parts)).flatten

/-- C8: at most one function call is surfaced per result, it is taken from
the first tool-call entry only, and an argument-parse failure degrades to a
text note with no function call and no exception. -/
theorem c8_first_call_only :
    (∀ (parse : String → Option Json) (data : Option RespData),
        (surfacedFunctionCalls (transformOpenAIResponseToGemini parse data)).length ≤ 1) ∧
    (∀ (parse : String → Option Json) (d : RespData) (c : RespChoice)
        (cr : List RespChoice) (m : RespMessage) (tc : RespToolCall)
        (tcr : List RespToolCall) (fn : RespFunction) (as nm : String) (args : Json),
        d.choices = some (c :: cr) → c.message = some m →
        m.tool_calls = some (tc :: tcr) → tc.function = some fn →
        fn.arguments = some as → fn.name = some nm → as ≠ "" → nm ≠ "" →
        parse as = some args →
        surfacedFunctionCalls (transformOpenAIResponseToGemini parse (some d)) =
          [{ name := nm, args := args }]) ∧
    (∀ (parse : String → Option Json) (d : RespData) (c : RespChoice)
        (cr : List RespChoice) (m : RespMessage) (tc : RespToolCall)
        (tcr : List RespToolCall) (fn : RespFunction) (as nm : String),
        d.choices = some (c :: cr) → c.message = some m →
        m.tool_calls = some (tc :: tcr) → tc.function = some fn →
        fn.arguments = some as → fn.name = some nm → as ≠ "" → nm ≠ "" →
        parse as = none →
        surfacedFunctionCalls (transformOpenAIResponseToGemini parse (some d)) = [] ∧
        Part.text "Error processing tool call from LLM." ∈
          partsOf (transformOpenAIResponseToGemini parse (some d))) := by
  refine ⟨?_, ?_, ?_⟩
  · intro parse data
    rcases data with _ | d
    · simp [transformOpenAIResponseToGemini, errorResponse, surfacedFunctionCalls, partFC]
    · rcases hch : d.choices with _ | ⟨_ | ⟨c, cr⟩⟩
      · simp [transformOpenAIResponseToGemini, hch, errorResponse,
          surfacedFunctionCalls, partFC]
      · simp [transformOpenAIResponseToGemini, hch, errorResponse,
          surfacedFunctionCalls, partFC]
      · rcases hm : c.message with _ | m
        · simp [transformOpenAIResponseToGemini, hch, hm, errorResponse,
            surfacedFunctionCalls, partFC]
        · rcases htc : m.tool_calls with _ | ⟨_ | ⟨tc, tcr⟩⟩
          · cases htr : truthyStr m.content
            · simp [transformOpenAIResponseToGemini, hch, hm, htc, htr,
                getD_of_not_truthy _ htr, surfacedFunctionCalls, partFC]
            · simp [transformOpenAIResponseToGemini, hch, hm, htc, htr,
                surfacedFunctionCalls, partFC]
          · cases htr : truthyStr m.content
            · simp [transformOpenAIResponseToGemini, hch, hm, htc, htr,
                getD_of_not_truthy _ htr, surfacedFunctionCalls, partFC]
            · simp [transformOpenAIResponseToGemini, hch, hm, htc, htr,
                surfacedFunctionCalls, partFC]
          · rcases hfn : tc.function with _ | fn
            · cases htr : truthyStr m.content <;>
                simp [transformOpenAIResponseToGemini, hch, hm, htc, hfn, htr,
                  surfacedFunctionCalls, partFC]
            · rcases has : fn.arguments with _ | as <;>
                rcases hnm : fn.name with _ | nm
              · cases htr : truthyStr m.content <;>
                  simp [transformOpenAIResponseToGemini, hch, hm, htc, hfn, has, hnm, htr,
                    surfacedFunctionCalls, partFC]
              · cases htr : truthyStr m.content <;>
                  simp [transformOpenAIResponseToGemini, hch, hm, htc, hfn, has, hnm, htr,
                    surfacedFunctionCalls, partFC]
              · cases htr : truthyStr m.content <;>
                  simp [transformOpenAIResponseToGemini, hch, hm, htc, hfn, has, hnm, htr,
                    surfacedFunctionCalls, partFC]
              · by_cases hcond : ((as != "") && (nm != "")) = true
                · rcases hparse : parse as with _ | args <;>
                    cases htr : truthyStr m.content <;>
                      simp [transformOpenAIResponseToGemini, hch, hm, htc, hfn, has, hnm,
                        hcond, hparse, htr, surfacedFunctionCalls, partFC]
                · cases htr : truthyStr m.content <;>
                    simp [transformOpenAIResponseToGemini, hch, hm, htc, hfn, has, hnm,
                      Bool.eq_false_iff.mpr hcond, htr, surfacedFunctionCalls, partFC]
  · intro parse d c cr m tc tcr fn as nm args hch hm htc hfn has hnm hasne hnmne hparse
    have hcond : ((as != "") && (nm != "")) = true := by simp [hasne, hnmne]
    cases htr : truthyStr m.content <;>
      simp [transformOpenAIResponseToGemini, hch, hm, htc, hfn, has, hnm, hcond, hparse,
        htr, surfacedFunctionCalls, partFC]
  · intro parse d c cr m tc tcr fn as nm hch hm htc hfn has hnm hasne hnmne hparse
    have hcond : ((as != "") && (nm != "")) = true := by simp [hasne, hnmne]
    cases htr : truthyStr m.content <;>
      simp [transformOpenAIResponseToGemini, hch, hm, htc, hfn, has, hnm, hcond, hparse,
        htr, surfacedFunctionCalls, partsOf, partFC]

def c8fn : RespFunction :=
  { name := some "runN8NWorkflow",
    arguments := some "\x7b\"workflowName\":\"Nightly Backup\"\x7d" }

def c8msg : RespMessage := { content := none, tool_calls := some [{ function := some c8fn }] }

def c8data : RespData := { choices := some [{ message := some c8msg }] }

/-- Witness for C8: a concrete single-tool-call body surfaces exactly the
first (and only) call with its parsed arguments. -/
theorem c8_witness :
    surfacedFunctionCalls (transformOpenAIResponseToGemini parseFix (some c8data)) =
      [{ name := "runN8NWorkflow",
         args := Json.obj [("workflowName", Json.str "Nightly Backup")] }] :=
  c8_first_call_only.2.1 parseFix c8data _ [] c8msg _ [] c8fn _ _ _
    rfl rfl rfl rfl rfl rfl (by decide) (by decide) rfl

/-- C9 counterexample: on a non-ok HTTP response the error surfaced to the
caller is the same status-free generic message for status 500 and status 404
(and differs from the status-bearing message the claim requires), because the
status-bearing throw is caught by `generateResponse`'s own catch block. -/
theorem c9_counterexample :
    (generateResponse [u0] settingsAllOn lmConnection "llama-3" true 0 parseFix
      (.response false 500 "Internal Server Error" none)).result =
      .error "Failed to get response from lmstudio. Check console for details." ∧
    (generateResponse [u0] settingsAllOn lmConnection "llama-3" true 0 parseFix
      (.response false 404 "Not Found" none)).result =
      .error "Failed to get response from lmstudio. Check console for details." ∧
    ("Failed to get response from lmstudio. Check console for details." ≠
      "Failed to get response from lmstudio. Status: 500.") :=
  ⟨rfl, rfl, by decide⟩

/-- C9 amended: on any non-ok HTTP response (supported provider) the error
surfaced to the caller is the generic provider-failure message, which carries
neither the numeric status nor the response body; the status-bearing message
is only constructed inside the try block and replaced by the catch. -/
theorem c9_amended (history : List Message) (settings : AgentSettings)
    (connection : ConnectionSettings) (modelName : String) (allowTools : Bool)
    (now : Nat) (parse : String → Option Json) (status : Nat) (bodyText : String)
    (jsonBody : Option (Option RespData))
    (hp : connection.provider = "lmstudio" ∨ connection.provider = "openrouter") :
    (generateResponse history settings connection modelName allowTools now parse
      (.response false status bodyText jsonBody)).result =
      .error ("Failed to get response from " ++ connection.provider ++
        ". Check console for details.") := by
  rcases hp with hp | hp <;> simp [generateResponse, hp]

/-- Witness for the amended C9. -/
theorem c9_amended_witness :
    (generateResponse [u0] settingsAllOn lmConnection "llama-3" true 0 parseFix
      (.response false 503 "Service Unavailable" none)).result =
      .error ("Failed to get response from " ++ lmConnection.provider ++
        ". Check console for details.") :=
  c9_amended [u0] settingsAllOn lmConnection "llama-3" true 0 parseFix 503
    "Service Unavailable" none (Or.inl rfl)

/-- C10: an ok HTTP response whose body is not valid JSON makes
`generateResponse` throw the generic provider-failure error; the
degrade-to-placeholder policy applies only to bodies that parse as JSON
(which are always normalized and returned). -/
theorem c10_invalid_json_throws (history : List Message) (settings : AgentSettings)
    (connection : ConnectionSettings) (modelName : String) (allowTools : Bool)
    (now : Nat) (parse : String → Option Json) (status : Nat) (bodyText : String)
    (hp : connection.provider = "lmstudio" ∨ connection.provider = "openrouter") :
    (generateResponse history settings connection modelName allowTools now parse
      (.response true status bodyText none)).result =
      .error ("Failed to get response from " ++ connection.provider ++
        ". Check console for details.") ∧
    (∀ data, (generateResponse history settings connection modelName allowTools now parse
      (.response true status bodyText (some data))).result =
      .ok (transformOpenAIResponseToGemini parse data)) := by
  rcases hp with hp | hp <;>
    exact ⟨by simp [generateResponse, hp], fun data => by simp [generateResponse, hp]⟩

/-- Witness for C10: an unparseable 200 body throws the generic error, while
a parsed body with missing `choices` yields the degraded placeholder result. -/
theorem c10_witness :
    (generateResponse [u0] settingsAllOn lmConnection "llama-3" true 0 parseFix
      (.response true 200 "not json" none)).result =
      .error ("Failed to get response from " ++ lmConnection.provider ++
        ". Check console for details.") ∧
    (generateResponse [u0] settingsAllOn lmConnection "llama-3" true 0 parseFix
      (.response true 200 "" (some (some { choices := none })))).result =
      .ok (transformOpenAIResponseToGemini parseFix (some { choices := none })) := by
  have h := c10_invalid_json_throws [u0] settingsAllOn lmConnection "llama-3" true 0
    parseFix 200 "not json" (Or.inl rfl)
  have h2 := c10_invalid_json_throws [u0] settingsAllOn lmConnection "llama-3" true 0
    parseFix 200 "" (Or.inl rfl)
  exact ⟨h.1, h2.2 (some { choices := none })⟩

theorem requestSent_of_ok (history : List Message) (env : Env) (allowTools : Bool)
    (f : FetchResult) (r : GenerateContentResponse) (h : genResult env f = .ok r) :
    (generateResponse history env.settings env.connection env.modelName allowTools
      env.now env.parse f).requestSent =
      some (buildRequestBody history env.settings env.connection env.modelName
        allowTools env.now) := by
  by_cases hp : (!(env.connection.provider == "lmstudio") &&
      !(env.connection.provider == "openrouter")) = true
  · exfalso
    unfold genResult generateResponse at h
    simp [hp] at h
  · simp [generateResponse, hp]

/-- One orchestrator round whose completion result carries a function-call
head part: the request is issued, the two tool transcript entries are
appended, and the loop recurses with `allowTools = false`. -/
theorem processResponse_cons_fc (env : Env) (f : FetchResult) (rest : List FetchResult)
    (msgs : List Message) (allowTools : Bool) (r : GenerateContentResponse)
    (fc : FunctionCall) (h : genResult env f = .ok r)
    (hfc : headPart r = some (.functionCall fc)) :
    processResponse env (f :: rest) msgs allowTools =
      (buildRequestBody msgs env.settings env.connection env.modelName allowTools env.now ::
        (processResponse env rest
          (msgs ++ [mkToolMessage fc, mkToolExecutionMessage fc]) false).1,
       (processResponse env rest
          (msgs ++ [mkToolMessage fc, mkToolExecutionMessage fc]) false).2) := by
  have hsent := requestSent_of_ok msgs env allowTools f r h
  have hres := genResult_spec msgs env allowTools f
  simp only [processResponse, hsent, hres, h, hfc, List.singleton_append]

/-- One orchestrator round whose completion result carries no function-call
head part: the request is issued and the round's text ends the turn. -/
theorem processResponse_cons_text (env : Env) (f : FetchResult) (rest : List FetchResult)
    (msgs : List Message) (allowTools : Bool) (r : GenerateContentResponse)
    (h : genResult env f = .ok r)
    (hnofc : ∀ fc, headPart r ≠ some (.functionCall fc)) :
    processResponse env (f :: rest) msgs allowTools =
      ([buildRequestBody msgs env.settings env.connection env.modelName allowTools env.now],
       .done msgs r.text) := by
  have hsent := requestSent_of_ok msgs env allowTools f r h
  have hres := genResult_spec msgs env allowTools f
  rcases hp : headPart r with _ | p
  · simp only [processResponse, hsent, hres, h, hp]
  · rcases p with s | fc2
    · simp only [processResponse, hsent, hres, h, hp]
    · exact absurd hp (hnofc fc2)

def c1fetches : List FetchResult :=
  [fcFetch "Nightly Backup", fcFetch "Nightly Backup", textFetch "All done."]

/-- The function call the provider requests in the concrete runs. -/
def nbCall : FunctionCall :=
  { name := "runN8NWorkflow", args := Json.obj [("workflowName", Json.str "Nightly Backup")] }

/-- C1 counterexample: with the first round yielding a functionCall and the
provider returning another functionCall on the tool-disabled second round,
the part_004 orchestrator issues three completion requests and runs two tool
rounds in one turn — not exactly one further request, and more than one tool
round. -/
theorem c1_counterexample :
    (∃ r, genResult env0 (fcFetch "Nightly Backup") = .ok r ∧
        headPart r = some (.functionCall nbCall)) ∧
    (processResponse env0 c1fetches [u0] true).1.length = 3 ∧
    toolRoleCount (procMsgs (processResponse env0 c1fetches [u0] true).2) = 2 :=
  ⟨⟨_, rfl, rfl⟩, rfl, rfl⟩

/-- C1 amended: a request built with `allowTools = false` carries no tool
declarations and no tool_choice regardless of settings; and when the first
round yields a functionCall and the tool-disabled second round yields no
functionCall, the orchestrator issues exactly one further request (two in
total) and exactly one tool round occurs. -/
theorem c1_amended :
    (∀ (history : List Message) (settings : AgentSettings)
        (connection : ConnectionSettings) (modelName : String) (now : Nat),
        (buildRequestBody history settings connection modelName false now).tools = none ∧
        (buildRequestBody history settings connection modelName false now).tool_choice =
          none) ∧
    (∀ (env : Env) (msgs : List Message) (f1 f2 : FetchResult)
        (r1 r2 : GenerateContentResponse) (fc : FunctionCall),
        genResult env f1 = .ok r1 →
        headPart r1 = some (.functionCall fc) →
        genResult env f2 = .ok r2 →
        (∀ fc2, headPart r2 ≠ some (.functionCall fc2)) →
        ∃ toolMsgs : List Message,
          toolRoleCount (msgs ++ toolMsgs) = toolRoleCount msgs + 1 ∧
          processResponse env [f1, f2] msgs true =
            ([buildRequestBody msgs env.settings env.connection env.modelName true env.now,
              buildRequestBody (msgs ++ toolMsgs) env.settings env.connection
                env.modelName false env.now],
             .done (msgs ++ toolMsgs) r2.text)) := by
  constructor
  · intro history settings connection modelName now
    constructor <;> simp [buildRequestBody]
  · intro env msgs f1 f2 r1 r2 fc h1 hfc h2 hnofc
    refine ⟨[mkToolMessage fc, mkToolExecutionMessage fc], ?_, ?_⟩
    · simp [toolRoleCount, List.filter_append, mkToolMessage, mkToolExecutionMessage]
    · rw [processResponse_cons_fc env f1 [f2] msgs true r1 fc h1 hfc,
        processResponse_cons_text env f2 [] _ false r2 h2 hnofc]

/-- Witness for the amended C1: a concrete turn with one tool round and a
plain-text second round issues exactly two requests, the second tool-free. -/
theorem c1_amended_witness :
    ∃ toolMsgs : List Message,
      toolRoleCount ([u0] ++ toolMsgs) = toolRoleCount [u0] + 1 ∧
      processResponse env0 [fcFetch "Nightly Backup", textFetch "All done."] [u0] true =
        ([buildRequestBody [u0] env0.settings env0.connection env0.modelName true env0.now,
          buildRequestBody ([u0] ++ toolMsgs) env0.settings env0.connection
            env0.modelName false env0.now],
         .done ([u0] ++ toolMsgs) "All done.") :=
  c1_amended.2 env0 [u0] (fcFetch "Nightly Backup") (textFetch "All done.") _ _ nbCall
    rfl rfl rfl (fun _fc2 h => Part.noConfusion (Option.some.inj h))

/-- C2: in a concrete turn whose first round requests the "Nightly Backup"
workflow, the orchestrator's appended tool-role entry carries the fixed
success text — `processResponse` takes no Workflow Gateway outcome at all —
while `N8NService.executeWorkflow` can report failure for that very request
(here: the workflow does not exist on the gateway). -/
theorem c2_code_bug_eval :
    (procMsgs (processResponse env0 [fcFetch "Nightly Backup", textFetch "Done."]
        [u0] true).2)[2]? = some (mkToolExecutionMessage nbCall) ∧
    mkToolExecutionMessage nbCall =
      { role := .tool,
        content := "Successfully executed the \"Nightly Backup\" workflow." } ∧
    (executeWorkflow (.ok [{ id := "9", name := "Other Workflow" }]) "Nightly Backup"
      (.ok Json.null)).success = false ∧
    (executeWorkflow (.ok [{ id := "9", name := "Other Workflow" }]) "Nightly Backup"
      (.ok Json.null)).error =
      some "Workflow \"Nightly Backup\" not found. Available workflows: Other Workflow" :=
  ⟨rfl, rfl, rfl, rfl⟩

def u1 : Message := { role := .user, content := "make my report" }

def c3fetches : List FetchResult :=
  [fcFetch "Daily Report", fcFetch "Daily Report", textFetch "Summary ready."]

/-- C3: the part_004 orchestrator issues the second round with tools disabled
(no tool declarations, no tool_choice), yet when the provider returns a stray
functionCall on that tool-disabled round the orchestrator does not treat the
result as text-only: it runs another tool round and issues a third request. -/
theorem c3_code_bug_eval :
    ((processResponse env0 c3fetches [u1] true).1.map
        (fun b => (b.tools.isSome, b.tool_choice))) =
      [(true, some "auto"), (false, none), (false, none)] ∧
    toolRoleCount (procMsgs (processResponse env0 c3fetches [u1] true).2) = 2 ∧
    (∃ r fc, genResult env0 (fcFetch "Daily Report") = .ok r ∧
        headPart r = some (.functionCall fc)) :=
  ⟨rfl, rfl, ⟨_, _, rfl, rfl⟩⟩

end LiquidAudio


